import Mathlib

/-!
Verification of the authentication subsystem of the notes-service backend.

The development shallowly embeds the auth domain of the repository:
`jwt_service.py`, `authentication_service.py`, `in_memory_token_repository.py`,
`in_memory_user_repository.py` and `jwt_auth_provider.py`.

Modelling conventions:
* JWT token strings are modelled symbolically by the inductive `Token`:
  `Token.signed payload secret alg` denotes the (deterministic) JWT encoding of
  `payload` under `secret`/`alg` produced by `jose.jwt.encode`, and
  `Token.malformed raw` denotes any other string `raw` (in particular
  `Token.malformed ""` denotes the empty string).  JWT encoding is
  deterministic and injective, and a JWT string is never empty, which the
  constructor representation captures.
* Timestamps are `Nat` seconds (python-jose truncates `datetime` claims to
  whole Unix seconds via `calendar.timegm`); `datetime.now` is embedded as an
  explicit `now : Nat` argument.
* Python dictionaries are association lists looked up from the front; an
  assignment `d[k] = v` prepends the binding, so a later binding shadows an
  earlier one.
* Python truthiness on strings (`if not s`) is explicit: a string is falsy
  exactly when it is `None` or `""`.
* `raise ValueError(msg)` is embedded as `Except.error` of an `AuthError`
  constructor, one per distinct failure family of the error taxonomy.
* `async` methods have no concurrency in this design; they are embedded as
  pure functions threading the mutable repository state explicitly.
-/

/-- Error taxonomy of the auth domain.  The source raises `ValueError` with a
message; each constructor stands for one family of messages:
`invalidCredentials` ↦ "Invalid credentials", `invalidToken` ↦
"Invalid refresh token" / "Invalid token type" / "Invalid token payload",
`tokenRevoked` ↦ "Refresh token not found or revoked", `userNotFound` ↦
"User not found", `conflictError` ↦ "User with id/email ... already exists". -/
inductive AuthError where
  | invalidCredentials
  | invalidToken
  | tokenRevoked
  | userNotFound
  | conflictError
deriving DecidableEq, Repr

/-- Domain entity `User` (entities/user.py): `id`, `email`, `name`. -/
structure User where
  id : String
  email : String
  name : String
deriving DecidableEq, Repr

/-- A JWT claim set as built by `jwt_service.py`.  Every claim key that the
code reads is a field; a key absent from the payload dictionary is `none`.
`exp` and `iat` are Unix-second timestamps. -/
structure Payload where
  sub : Option String
  email : Option String
  typ : Option String
  exp : Option Nat
  iat : Option Nat
deriving DecidableEq, Repr

/-- Symbolic model of token strings: `signed payload secret alg` is the JWT
encoding of `payload` signed with `secret` under algorithm `alg`;
`malformed raw` is any non-JWT string `raw`. -/
inductive Token where
  | signed (payload : Payload) (secret : String) (alg : String)
  | malformed (raw : String)
deriving DecidableEq, Repr

/-- Whether the string a token denotes is the empty string (the only falsy
string): a JWT encoding is never empty, so only `malformed ""` qualifies. -/
def Token.isEmptyStr : Token → Bool
  | .malformed "" => true
  | _ => false

/-- First-match lookup in an association list: the embedding of
`dict.get(key)` where assignment prepends bindings. -/
def lookupStr {α : Type} (key : String) : List (String × α) → Option α
  | [] => none
  | (k, v) :: rest => if k = key then some v else lookupStr key rest

/-- `JWTService.__init__` configuration (jwt_service.py). -/
structure JWTService where
  secret_key : String
  algorithm : String
deriving DecidableEq, Repr

/-- `JWTService.encode_token`: access-token payload
`{sub, email, type: "access", exp: now+expires_in, iat: now}`, signed. -/
def JWTService.encode_token (s : JWTService) (user_id : String) (email : String)
    (expires_in : Nat) (now : Nat) : Token :=
  Token.signed
    { sub := some user_id, email := some email, typ := some "access",
      exp := some (now + expires_in), iat := some now }
    s.secret_key s.algorithm

/-- `JWTService.encode_refresh_token`: refresh-token payload
`{sub, type: "refresh", exp: now+expires_in, iat: now}` (no email), signed. -/
def JWTService.encode_refresh_token (s : JWTService) (user_id : String)
    (expires_in : Nat) (now : Nat) : Token :=
  Token.signed
    { sub := some user_id, email := none, typ := some "refresh",
      exp := some (now + expires_in), iat := some now }
    s.secret_key s.algorithm

/-- python-jose expiry check (no leeway): a payload is unexpired when it has
no `exp` claim or `now ≤ exp`. -/
def Payload.unexpired (p : Payload) (now : Nat) : Bool :=
  match p.exp with
  | none => true
  | some e => decide (now ≤ e)

/-- `JWTService.validate_token`: `jwt.decode(token, secret_key, [algorithm])`
wrapped in `try/except JWTError: return None`.  Decoding succeeds exactly on a
well-formed JWT signed with the service's secret under the service's
algorithm whose `exp` claim (if any) has not elapsed; every other input
yields `None` rather than an exception. -/
def JWTService.validate_token (s : JWTService) (token : Token) (now : Nat) :
    Option Payload :=
  match token with
  | .malformed _ => none
  | .signed payload secret alg =>
    if secret = s.secret_key ∧ alg = s.algorithm ∧ payload.unexpired now = true
    then some payload
    else none

/-- `JWTService.decode_token`: decoding with `verify_exp: False` — signature
and algorithm are still verified, expiry is not. -/
def JWTService.decode_token (s : JWTService) (token : Token) : Option Payload :=
  match token with
  | .malformed _ => none
  | .signed payload secret alg =>
    if secret = s.secret_key ∧ alg = s.algorithm then some payload else none

/-- `InMemoryTokenRepository` state: the `_refresh_tokens` dict mapping
`user_id` to the stored refresh-token string. -/
structure InMemoryTokenRepository where
  refresh_tokens : List (String × Token)
deriving DecidableEq, Repr

/-- `store_refresh_token`: `self._refresh_tokens[user_id] = refresh_token`. -/
def InMemoryTokenRepository.store_refresh_token (r : InMemoryTokenRepository)
    (user_id : String) (refresh_token : Token) : InMemoryTokenRepository :=
  ⟨(user_id, refresh_token) :: r.refresh_tokens⟩

/-- `get_refresh_token`: `self._refresh_tokens.get(user_id)`. -/
def InMemoryTokenRepository.get_refresh_token (r : InMemoryTokenRepository)
    (user_id : String) : Option Token :=
  lookupStr user_id r.refresh_tokens

/-- `revoke_refresh_token`: `del self._refresh_tokens[user_id]` when present
(idempotent).  All bindings for the key are removed. -/
def InMemoryTokenRepository.revoke_refresh_token (r : InMemoryTokenRepository)
    (user_id : String) : InMemoryTokenRepository :=
  ⟨r.refresh_tokens.filter (fun p => p.1 ≠ user_id)⟩

/-- `validate_refresh_token`: fetch the stored token; `if not stored_token:
return False` (absent **or the empty string**); otherwise compare for string
equality with the presented token. -/
def InMemoryTokenRepository.validate_refresh_token (r : InMemoryTokenRepository)
    (user_id : String) (refresh_token : Token) : Bool :=
  match lookupStr user_id r.refresh_tokens with
  | none => false
  | some stored_token =>
    if stored_token.isEmptyStr then false
    else decide (stored_token = refresh_token)

/-- `InMemoryUserRepository` state: `_users_by_id`, `_users_by_email`,
`_passwords` dicts. -/
structure InMemoryUserRepository where
  users_by_id : List (String × User)
  users_by_email : List (String × User)
  passwords : List (String × String)
deriving DecidableEq, Repr

/-- The mock user installed by `_initialize_mock_data`. -/
def mockUser : User :=
  { id := "user-1", email := "john.doe@ancorit.com", name := "Test User" }

/-- `InMemoryUserRepository.__init__` followed by `_initialize_mock_data`. -/
def InMemoryUserRepository.init : InMemoryUserRepository :=
  { users_by_id := [("user-1", mockUser)],
    users_by_email := [("john.doe@ancorit.com", mockUser)],
    passwords := [("john.doe@ancorit.com", "LetMeIn!")] }

/-- `get_by_email`: `self._users_by_email.get(email)`. -/
def InMemoryUserRepository.get_by_email (r : InMemoryUserRepository)
    (email : String) : Option User :=
  lookupStr email r.users_by_email

/-- `get_by_id`: `self._users_by_id.get(user_id)`. -/
def InMemoryUserRepository.get_by_id (r : InMemoryUserRepository)
    (user_id : String) : Option User :=
  lookupStr user_id r.users_by_id

/-- `create_user`: reject when `user.id in _users_by_id` or
`user.email in _users_by_email`, else insert into both dicts. -/
def InMemoryUserRepository.create_user (r : InMemoryUserRepository)
    (user : User) : Except AuthError InMemoryUserRepository :=
  if (lookupStr user.id r.users_by_id).isSome then
    Except.error AuthError.conflictError
  else if (lookupStr user.email r.users_by_email).isSome then
    Except.error AuthError.conflictError
  else
    Except.ok
      { r with
        users_by_id := (user.id, user) :: r.users_by_id,
        users_by_email := (user.email, user) :: r.users_by_email }

/-- `validate_password`: fetch the stored credential; `if not stored_password:
return False` (absent or the empty string); otherwise compare exactly. -/
def InMemoryUserRepository.validate_password (r : InMemoryUserRepository)
    (email : String) (password : String) : Bool :=
  match lookupStr email r.passwords with
  | none => false
  | some stored_password =>
    if stored_password = "" then false
    else decide (stored_password = password)

/-- The user-directory port as the `AuthenticationService` consumes it
(user_repository_port.py plus the duck-typed `validate_password` capability
probed with `hasattr` in authentication_service.py): any implementation is a
record of its lookup functions together with whether it has a
`validate_password` method and, when it has one, that method. -/
structure UserRepositoryPort where
  get_by_email : String → Option User
  get_by_id : String → Option User
  has_validate_password : Bool
  validate_password : String → String → Bool

/-- `InMemoryUserRepository` seen through the port: it does define
`validate_password`, so the `hasattr` probe answers true. -/
def InMemoryUserRepository.toPort (r : InMemoryUserRepository) :
    UserRepositoryPort :=
  { get_by_email := r.get_by_email,
    get_by_id := r.get_by_id,
    has_validate_password := true,
    validate_password := r.validate_password }

/-- `AuthenticationService.__init__` configuration; the injected
`user_repository` and `token_repository` are passed to each operation
explicitly (the token repository is the mutable state being threaded). -/
structure AuthenticationService where
  jwt_service : JWTService
  access_token_expiry : Nat
  refresh_token_expiry : Nat
deriving DecidableEq, Repr

/-- `AuthenticationService.login`: look up the user by email (fail
`invalidCredentials` if absent); if the repository has `validate_password`,
check the password (fail `invalidCredentials` on mismatch), otherwise skip
the check; mint an access and a refresh token; store the refresh token under
`user.id`; return both tokens.  The result pairs the returned value (or
error) with the token-repository state after the call. -/
def AuthenticationService.login (svc : AuthenticationService)
    (user_repository : UserRepositoryPort)
    (token_repository : InMemoryTokenRepository)
    (email : String) (password : String) (now : Nat) :
    Except AuthError (Token × Token) × InMemoryTokenRepository :=
  match user_repository.get_by_email email with
  | none => (Except.error AuthError.invalidCredentials, token_repository)
  | some user =>
    if user_repository.has_validate_password = true ∧
        user_repository.validate_password email password = false then
      (Except.error AuthError.invalidCredentials, token_repository)
    else
      let access_token :=
        svc.jwt_service.encode_token user.id user.email svc.access_token_expiry now
      let refresh_token :=
        svc.jwt_service.encode_refresh_token user.id svc.refresh_token_expiry now
      (Except.ok (access_token, refresh_token),
       token_repository.store_refresh_token user.id refresh_token)

/-- `AuthenticationService.refresh_token`: validate the presented token
(`invalidToken` if `validate_token` yields `None` — note an empty claim set
is also falsy in Python, and is likewise rejected here at the type check that
follows); require `type == "refresh"` (`invalidToken`); require a truthy
`sub` claim (`invalidToken`); require the store's current token for that
subject to equal the presented one (`tokenRevoked`); look up the user
(`userNotFound`); mint a new pair and overwrite the stored refresh token. -/
def AuthenticationService.refresh_token (svc : AuthenticationService)
    (user_repository : UserRepositoryPort)
    (token_repository : InMemoryTokenRepository)
    (refresh_token : Token) (now : Nat) :
    Except AuthError (Token × Token) × InMemoryTokenRepository :=
  match svc.jwt_service.validate_token refresh_token now with
  | none => (Except.error AuthError.invalidToken, token_repository)
  | some payload =>
    if payload.typ ≠ some "refresh" then
      (Except.error AuthError.invalidToken, token_repository)
    else
      match payload.sub with
      | none => (Except.error AuthError.invalidToken, token_repository)
      | some user_id =>
        if user_id = "" then
          (Except.error AuthError.invalidToken, token_repository)
        else if token_repository.validate_refresh_token user_id refresh_token
            = false then
          (Except.error AuthError.tokenRevoked, token_repository)
        else
          match user_repository.get_by_id user_id with
          | none => (Except.error AuthError.userNotFound, token_repository)
          | some user =>
            let new_access_token :=
              svc.jwt_service.encode_token user.id user.email
                svc.access_token_expiry now
            let new_refresh_token :=
              svc.jwt_service.encode_refresh_token user.id
                svc.refresh_token_expiry now
            (Except.ok (new_access_token, new_refresh_token),
             token_repository.store_refresh_token user.id new_refresh_token)

/-- `AuthenticationService.get_current_user`: validate the token; require
`type == "access"`; require a truthy `sub`; look the user up by id.  Any
failure yields `none`. -/
def AuthenticationService.get_current_user (svc : AuthenticationService)
    (user_repository : UserRepositoryPort) (token : Token) (now : Nat) :
    Option User :=
  match svc.jwt_service.validate_token token now with
  | none => none
  | some payload =>
    if payload.typ ≠ some "access" then none
    else
      match payload.sub with
      | none => none
      | some user_id =>
        if user_id = "" then none
        else user_repository.get_by_id user_id

/-- `JWTAuthProvider.__init__` configuration (jwt_auth_provider.py); the
injected `user_repository` is passed to `authenticate` explicitly. -/
structure JWTAuthProvider where
  jwt_service : JWTService
deriving DecidableEq, Repr

/-- `JWTAuthProvider.authenticate`: validate the token; require
`type == "access"`; require a truthy `sub`; look the user up by id. -/
def JWTAuthProvider.authenticate (p : JWTAuthProvider)
    (user_repository : UserRepositoryPort) (token : Token) (now : Nat) :
    Option User :=
  match p.jwt_service.validate_token token now with
  | none => none
  | some payload =>
    if payload.typ ≠ some "access" then none
    else
      match payload.sub with
      | none => none
      | some user_id =>
        if user_id = "" then none
        else user_repository.get_by_id user_id

/-! Concrete fixture matching the bootstrap wiring and the spec's scenario:
the mock directory, a token repository, and a service with the default
HS256 configuration. -/

/-- A concretely configured service (15-minute access TTL, 7-day refresh
TTL, in seconds). -/
def demoService : AuthenticationService :=
  { jwt_service := { secret_key := "test-secret", algorithm := "HS256" },
    access_token_expiry := 900, refresh_token_expiry := 604800 }

/-- The mock directory seen through the port. -/
def demoPort : UserRepositoryPort := InMemoryUserRepository.init.toPort

/-- The access token minted by a login at time 0. -/
def demoAT : Token :=
  demoService.jwt_service.encode_token "user-1" "john.doe@ancorit.com" 900 0

/-- The refresh token minted by a login at time 0. -/
def demoRT : Token :=
  demoService.jwt_service.encode_refresh_token "user-1" 604800 0

/-- The claim set of `demoAT`. -/
def demoATPayload : Payload :=
  { sub := some "user-1", email := some "john.doe@ancorit.com",
    typ := some "access", exp := some 900, iat := some 0 }

/-- The claim set of `demoRT`. -/
def demoRTPayload : Payload :=
  { sub := some "user-1", email := none, typ := some "refresh",
    exp := some 604800, iat := some 0 }

/-- The token-repository state right after that login stored `demoRT`. -/
def demoRepo1 : InMemoryTokenRepository := ⟨[("user-1", demoRT)]⟩

/-- The access token minted by a refresh at time 1. -/
def demoAT1 : Token :=
  demoService.jwt_service.encode_token "user-1" "john.doe@ancorit.com" 900 1

/-- The refresh token minted by a refresh at time 1. -/
def demoRT1 : Token :=
  demoService.jwt_service.encode_refresh_token "user-1" 604800 1

/-! Helper lemmas shared by the claim theorems. -/

/-- A freshly encoded refresh token validates (with its own claim set) at any
time up to its expiry. -/
theorem validate_encode_refresh (s : JWTService) (uid : String)
    (ttl now1 now2 : Nat) (h : now2 ≤ now1 + ttl) :
    s.validate_token (s.encode_refresh_token uid ttl now1) now2
      = some { sub := some uid, email := none, typ := some "refresh",
               exp := some (now1 + ttl), iat := some now1 } := by
  simp [JWTService.validate_token, JWTService.encode_refresh_token,
    Payload.unexpired, h]

/-- A freshly encoded access token validates (with its own claim set) at any
time up to its expiry. -/
theorem validate_encode_access (s : JWTService) (uid email : String)
    (ttl now1 now2 : Nat) (h : now2 ≤ now1 + ttl) :
    s.validate_token (s.encode_token uid email ttl now1) now2
      = some { sub := some uid, email := some email, typ := some "access",
               exp := some (now1 + ttl), iat := some now1 } := by
  simp [JWTService.validate_token, JWTService.encode_token,
    Payload.unexpired, h]

/-- The success path of `refresh_token` in closed form: when the presented
token is an unexpired refresh token minted by the service for a truthy
subject, the store holds exactly that token for the subject, and the
directory resolves the subject, `refresh_token` mints a new pair and
overwrites the store entry for `user.id`. -/
theorem refresh_token_success (svc : AuthenticationService)
    (dir : UserRepositoryPort) (repo : InMemoryTokenRepository)
    (uid : String) (u : User) (ttl now1 now2 : Nat)
    (hu : dir.get_by_id uid = some u) (hne : uid ≠ "")
    (hval : repo.validate_refresh_token uid
      (svc.jwt_service.encode_refresh_token uid ttl now1) = true)
    (hexp : now2 ≤ now1 + ttl) :
    svc.refresh_token dir repo
        (svc.jwt_service.encode_refresh_token uid ttl now1) now2
      = (Except.ok
          (svc.jwt_service.encode_token u.id u.email svc.access_token_expiry now2,
           svc.jwt_service.encode_refresh_token u.id svc.refresh_token_expiry now2),
         repo.store_refresh_token u.id
           (svc.jwt_service.encode_refresh_token u.id svc.refresh_token_expiry now2)) := by
  unfold AuthenticationService.refresh_token
  rw [validate_encode_refresh _ _ _ _ _ hexp]
  simp [hne, hval, hu]

/-- Every `refresh_token` call either returns a pair or leaves the
token-repository state exactly as it found it. -/
theorem refresh_token_ok_or_preserves (svc : AuthenticationService)
    (dir : UserRepositoryPort) (repo : InMemoryTokenRepository)
    (t : Token) (now : Nat) :
    (∃ pair, (svc.refresh_token dir repo t now).1 = Except.ok pair) ∨
    (svc.refresh_token dir repo t now).2 = repo := by
  unfold AuthenticationService.refresh_token
  repeat' split
  all_goals first
    | (right; rfl)
    | (left; exact ⟨_, rfl⟩)

/-! Claim theorems. -/

/-- C4: for every user-directory implementation of the port (which, per the
spec contract, provides password verification, so the `hasattr` probe
answers true), if a user with the given email exists but password
verification fails, `login` fails with `InvalidCredentials`. -/
theorem login_wrong_password_invalid_credentials (svc : AuthenticationService)
    (dir : UserRepositoryPort) (repo : InMemoryTokenRepository)
    (email password : String) (now : Nat) (u : User)
    (hcap : dir.has_validate_password = true)
    (hu : dir.get_by_email email = some u)
    (hpw : dir.validate_password email password = false) :
    (svc.login dir repo email password now).1
      = Except.error AuthError.invalidCredentials := by
  unfold AuthenticationService.login
  rw [hu]
  simp [hcap, hpw]

/-- Witness for C4: the spec's own scenario — a wrong password for the mock
user is rejected with `InvalidCredentials`. -/
theorem login_wrong_password_invalid_credentials_witness :
    (demoService.login demoPort ⟨[]⟩ "john.doe@ancorit.com" "wrong" 0).1
      = Except.error AuthError.invalidCredentials :=
  login_wrong_password_invalid_credentials demoService demoPort ⟨[]⟩
    "john.doe@ancorit.com" "wrong" 0 mockUser rfl rfl rfl

/-- C9: the token-based auth provider's `authenticate` agrees with the
Authentication Service's `get_current_user` on every token, time, and shared
directory/codec state — the two are extensionally equal. -/
theorem jwt_auth_provider_refines_get_current_user (jwt : JWTService)
    (a r : Nat) (dir : UserRepositoryPort) (t : Token) (now : Nat) :
    JWTAuthProvider.authenticate ⟨jwt⟩ dir t now
      = AuthenticationService.get_current_user ⟨jwt, a, r⟩ dir t now := rfl

/-- C10: a failed `refresh_token` call leaves the refresh-token store
unchanged — every user's stored token is the same after the call as before. -/
theorem refresh_failure_preserves_store (svc : AuthenticationService)
    (dir : UserRepositoryPort) (repo : InMemoryTokenRepository)
    (t : Token) (now : Nat) (e : AuthError)
    (h : (svc.refresh_token dir repo t now).1 = Except.error e) :
    (svc.refresh_token dir repo t now).2 = repo := by
  rcases refresh_token_ok_or_preserves svc dir repo t now with ⟨pair, hok⟩ | hpres
  · rw [hok] at h
    exact absurd h (by simp)
  · exact hpres

/-- Witness for C10: a refresh with a malformed token fails and leaves the
store as it was. -/
theorem refresh_failure_preserves_store_witness :
    (demoService.refresh_token demoPort demoRepo1 (Token.malformed "junk") 0).2
      = demoRepo1 :=
  refresh_failure_preserves_store demoService demoPort demoRepo1
    (Token.malformed "junk") 0 AuthError.invalidToken rfl

/-- C5: `verify` is total — embedded as a function into `Option`, mirroring
the `try/except JWTError: return None` in the source, so no input throws.  It
returns the claims exactly on a token signed with the configured secret and
algorithm whose expiry has not elapsed; on every malformed, unsigned,
wrong-key, wrong-algorithm or expired token it returns `none`. -/
theorem validate_token_characterization (s : JWTService) (t : Token)
    (now : Nat) :
    (∀ p : Payload, s.validate_token t now = some p ↔
      t = Token.signed p s.secret_key s.algorithm ∧ p.unexpired now = true) ∧
    (s.validate_token t now = none ↔
      ∀ p : Payload, t = Token.signed p s.secret_key s.algorithm →
        p.unexpired now = false) := by
  cases t with
  | malformed raw => simp [JWTService.validate_token]
  | signed p sec alg =>
    simp only [JWTService.validate_token]
    refine ⟨fun q => ⟨fun h => ?_, fun h => ?_⟩, fun h q hq => ?_, fun h => ?_⟩
    · split at h
      · rename_i hcond
        obtain ⟨h1, h2, h3⟩ := hcond
        subst h1; subst h2
        injection h with h; subst h
        exact ⟨rfl, h3⟩
      · cases h
    · obtain ⟨heq, hexp⟩ := h
      injection heq with hp hs ha
      subst hp; subst hs; subst ha
      rw [if_pos ⟨rfl, rfl, hexp⟩]
    · injection hq with hp hs ha
      subst hp; subst hs; subst ha
      split at h
      · cases h
      · rename_i hcond
        by_contra hf
        exact hcond ⟨rfl, rfl, by simpa using hf⟩
    · split
      · rename_i hcond
        obtain ⟨h1, h2, h3⟩ := hcond
        subst h1; subst h2
        have := h p rfl
        rw [h3] at this
        cases this
      · rfl

/-- Witness for C5: the characterization applied to the demo refresh token at
time 0, at which it validates to its own claim set. -/
theorem validate_token_characterization_witness :
    demoService.jwt_service.validate_token demoRT 0 = some demoRTPayload ∧
    demoService.jwt_service.validate_token (Token.malformed "junk") 0 = none :=
  ⟨((validate_token_characterization demoService.jwt_service demoRT 0).1
      demoRTPayload).2 ⟨rfl, rfl⟩,
   ((validate_token_characterization demoService.jwt_service
      (Token.malformed "junk") 0).2).2 (fun p h => by cases h)⟩

/-- C6: a validly signed, unexpired token of type `access` presented to
`refresh_token` fails with `InvalidToken` (wrong type), and a validly signed,
unexpired token of type `refresh` presented to `get_current_user` yields
`none`. -/
theorem wrong_token_type_rejected (svc : AuthenticationService)
    (dir : UserRepositoryPort) (repo : InMemoryTokenRepository)
    (p : Payload) (now : Nat) (hexp : p.unexpired now = true) :
    (p.typ = some "access" →
      (svc.refresh_token dir repo
          (Token.signed p svc.jwt_service.secret_key svc.jwt_service.algorithm)
          now).1
        = Except.error AuthError.invalidToken) ∧
    (p.typ = some "refresh" →
      svc.get_current_user dir
          (Token.signed p svc.jwt_service.secret_key svc.jwt_service.algorithm)
          now
        = none) := by
  constructor
  · intro htyp
    unfold AuthenticationService.refresh_token
    simp [JWTService.validate_token, hexp, htyp]
  · intro htyp
    unfold AuthenticationService.get_current_user
    simp [JWTService.validate_token, hexp, htyp]

/-- Witness for C6: the demo access token is rejected by `refresh_token` with
`InvalidToken`, and the demo refresh token resolves no current user. -/
theorem wrong_token_type_rejected_witness :
    (demoService.refresh_token demoPort demoRepo1 demoAT 0).1
        = Except.error AuthError.invalidToken ∧
    demoService.get_current_user demoPort demoRT 0 = none :=
  ⟨(wrong_token_type_rejected demoService demoPort demoRepo1 demoATPayload 0
      rfl).1 rfl,
   (wrong_token_type_rejected demoService demoPort demoRepo1 demoRTPayload 0
      rfl).2 rfl⟩

/-- C7 counterexample: a store whose entry for `"u"` is the empty string.
The stored token exists and equals the presented token byte-for-byte, yet
`validate_refresh_token` returns `false`, because `if not stored_token`
treats the empty string like an absent entry. -/
theorem validate_refresh_token_empty_string_cex :
    (InMemoryTokenRepository.mk [("u", Token.malformed "")]).get_refresh_token
        "u" = some (Token.malformed "") ∧
    (InMemoryTokenRepository.mk [("u", Token.malformed "")]).validate_refresh_token
        "u" (Token.malformed "") = false := by
  constructor <;> rfl

/-- C7 amended: `validate_refresh_token user_id token` is true iff a stored
token exists for `user_id`, is **non-empty**, and equals `token` exactly. -/
theorem validate_refresh_token_iff (r : InMemoryTokenRepository)
    (user_id : String) (t : Token) :
    r.validate_refresh_token user_id t = true ↔
      (r.get_refresh_token user_id = some t ∧ t.isEmptyStr = false) := by
  unfold InMemoryTokenRepository.validate_refresh_token
    InMemoryTokenRepository.get_refresh_token
  cases h : lookupStr user_id r.refresh_tokens with
  | none => simp
  | some stored =>
    simp only [Option.some.injEq]
    constructor
    · intro hv
      split at hv
      · cases hv
      · rename_i hemp
        have : stored = t := by simpa using hv
        subst this
        exact ⟨rfl, by simpa using hemp⟩
    · rintro ⟨rfl, hemp⟩
      rw [if_neg (by simp [hemp])]
      simp

/-- C8: `create_user` succeeds exactly when neither the user's id nor the
user's email is already a key of the directory, and fails with the conflict
error exactly when the id or the email is already present. -/
theorem create_user_conflict_characterization (r : InMemoryUserRepository)
    (user : User) :
    ((∃ r2, r.create_user user = Except.ok r2) ↔
      lookupStr user.id r.users_by_id = none ∧
      lookupStr user.email r.users_by_email = none) ∧
    (r.create_user user = Except.error AuthError.conflictError ↔
      ¬ (lookupStr user.id r.users_by_id = none ∧
         lookupStr user.email r.users_by_email = none)) := by
  unfold InMemoryUserRepository.create_user
  by_cases h1 : (lookupStr user.id r.users_by_id).isSome
  · rw [if_pos h1]
    simp [Option.isSome_iff_ne_none] at h1
    simp [h1]
  · rw [if_neg h1]
    simp only [Option.isSome_iff_ne_none, ne_eq, not_not] at h1
    by_cases h2 : (lookupStr user.email r.users_by_email).isSome
    · rw [if_pos h2]
      simp [Option.isSome_iff_ne_none] at h2
      simp [h1, h2]
    · rw [if_neg h2]
      simp only [Option.isSome_iff_ne_none, ne_eq, not_not] at h2
      simp [h1, h2]

/-- Witness for C7 (amended): instantiated on the state after the demo login,
whose stored token for `"user-1"` is `demoRT`. -/
theorem validate_refresh_token_iff_witness :
    demoRepo1.validate_refresh_token "user-1" demoRT = true :=
  (validate_refresh_token_iff demoRepo1 "user-1" demoRT).2 ⟨rfl, rfl⟩

/-- Witness for C8: creating a user with a fresh id and email succeeds;
re-creating the mock user (id and email both taken) conflicts. -/
theorem create_user_conflict_characterization_witness :
    (∃ r2, InMemoryUserRepository.init.create_user
        ⟨"user-2", "jane.roe@ancorit.com", "Jane Roe"⟩ = Except.ok r2) ∧
    InMemoryUserRepository.init.create_user mockUser
      = Except.error AuthError.conflictError :=
  ⟨(create_user_conflict_characterization InMemoryUserRepository.init
      ⟨"user-2", "jane.roe@ancorit.com", "Jane Roe"⟩).1.2 ⟨rfl, rfl⟩,
   (create_user_conflict_characterization InMemoryUserRepository.init
      mockUser).2.2 (by decide)⟩

/-- C3: whenever the directory holds `u` under the given email (and, the
directory being coherent, resolves `u.id` back to `u`) and the stored
credential matches the password exactly, `login` returns a token pair and
`get_current_user` on the returned access token returns that same user.
(`u.id ≠ ""` is the entity invariant: `User.id` has `min_length=1`.) -/
theorem login_then_resolve_current_user (svc : AuthenticationService)
    (dir : UserRepositoryPort) (repo : InMemoryTokenRepository)
    (email password : String) (now : Nat) (u : User)
    (hemail : dir.get_by_email email = some u)
    (hpw : dir.validate_password email password = true)
    (hid : dir.get_by_id u.id = some u)
    (hne : u.id ≠ "") :
    ∃ access_token refresh_tok : Token,
      (svc.login dir repo email password now).1
        = Except.ok (access_token, refresh_tok) ∧
      svc.get_current_user dir access_token now = some u := by
  refine ⟨svc.jwt_service.encode_token u.id u.email svc.access_token_expiry now,
          svc.jwt_service.encode_refresh_token u.id svc.refresh_token_expiry now,
          ?_, ?_⟩
  · unfold AuthenticationService.login
    rw [hemail]
    simp [hpw]
  · unfold AuthenticationService.get_current_user
    rw [validate_encode_access _ _ _ _ _ _ (Nat.le_add_right now _)]
    simp [hne, hid]

/-- Witness for C3: the spec's scenario — logging the mock user in at time 0
and resolving the returned access token yields the mock user back. -/
theorem login_then_resolve_current_user_witness :
    ∃ access_token refresh_tok : Token,
      (demoService.login demoPort ⟨[]⟩ "john.doe@ancorit.com" "LetMeIn!" 0).1
        = Except.ok (access_token, refresh_tok) ∧
      demoService.get_current_user demoPort access_token 0 = some mockUser :=
  login_then_resolve_current_user demoService demoPort ⟨[]⟩
    "john.doe@ancorit.com" "LetMeIn!" 0 mockUser rfl rfl rfl (by decide)

/-- Helper: whenever `refresh_token` returns a pair, its refresh component is
a token the service minted for some user at the current time. -/
theorem refresh_token_ok_shape (svc : AuthenticationService)
    (dir : UserRepositoryPort) (repo : InMemoryTokenRepository)
    (t : Token) (now : Nat) (a r : Token)
    (hok : (svc.refresh_token dir repo t now).1 = Except.ok (a, r)) :
    ∃ user : User,
      r = svc.jwt_service.encode_refresh_token user.id svc.refresh_token_expiry now := by
  unfold AuthenticationService.refresh_token at hok
  repeat' split at hok
  rotate_left 6
  · rename_i user heq
    have hok2 : Except.ok
        (svc.jwt_service.encode_token user.id user.email
           svc.access_token_expiry now,
         svc.jwt_service.encode_refresh_token user.id
           svc.refresh_token_expiry now)
        = Except.ok (a, r) := hok
    injection hok2 with hpair
    injection hpair with ha hr
    exact ⟨user, hr.symm⟩
  all_goals exact absurd hok (by simp)

/-- C2 counterexample: refreshing `demoRT` in the very second it was issued
mints a byte-identical refresh token (JWT encoding is deterministic and the
`iat`/`exp` claims coincide), so `refresh` returns a pair whose refresh token
equals the input.  The first conjunct shows `demoRT` and `demoRepo1` really
arise from a login. -/
theorem refresh_returns_input_token_cex :
    demoService.login demoPort ⟨[]⟩ "john.doe@ancorit.com" "LetMeIn!" 0
      = (Except.ok (demoAT, demoRT), demoRepo1) ∧
    (demoService.refresh_token demoPort demoRepo1 demoRT 0).1
      = Except.ok (demoAT, demoRT) :=
  ⟨rfl, rfl⟩

/-- C2 amended: whenever `refresh` accepts a presented token whose `iat`
claim is not the current second, the refresh token of the returned pair
differs from the input.  (Within the same second the minted token is
byte-identical to the input, as the counterexample shows.) -/
theorem refresh_output_ne_input (svc : AuthenticationService)
    (dir : UserRepositoryPort) (repo : InMemoryTokenRepository)
    (p : Payload) (sec alg : String) (now : Nat) (a r : Token)
    (hiat : p.iat ≠ some now)
    (hok : (svc.refresh_token dir repo (Token.signed p sec alg) now).1
      = Except.ok (a, r)) :
    r ≠ Token.signed p sec alg := by
  obtain ⟨user, hr⟩ :=
    refresh_token_ok_shape svc dir repo (Token.signed p sec alg) now a r hok
  subst hr
  intro heq
  simp only [JWTService.encode_refresh_token, Token.signed.injEq] at heq
  exact hiat (congrArg Payload.iat heq.1).symm

/-- Witness for C2 (amended): refreshing `demoRT` (issued at second 0) at
second 1 yields a refresh token different from the input. -/
theorem refresh_output_ne_input_witness :
    demoRT1 ≠ Token.signed demoRTPayload "test-secret" "HS256" :=
  refresh_output_ne_input demoService demoPort demoRepo1 demoRTPayload
    "test-secret" "HS256" 1 demoAT1 demoRT1 (by decide) rfl

/-- C1 counterexample: login and both refresh calls at second 0.  The first
refresh succeeds but — the rotation having minted a byte-identical token —
a second refresh presenting the same freshly issued token succeeds as well,
instead of failing with `TokenRevoked`. -/
theorem refresh_second_use_succeeds_cex :
    demoService.login demoPort ⟨[]⟩ "john.doe@ancorit.com" "LetMeIn!" 0
      = (Except.ok (demoAT, demoRT), demoRepo1) ∧
    (demoService.refresh_token demoPort demoRepo1 demoRT 0).1
      = Except.ok (demoAT, demoRT) ∧
    (demoService.refresh_token demoPort
        (demoService.refresh_token demoPort demoRepo1 demoRT 0).2
        demoRT 0).1
      = Except.ok (demoAT, demoRT) :=
  ⟨rfl, rfl, rfl⟩

/-- C1 amended: for a freshly issued refresh token (the store holds exactly
it for its subject, as `login` and a successful `refresh` leave things),
provided the refresh call happens strictly after the issuance second (and
before expiry, with the subject still in the directory), the call succeeds;
after that success a second call presenting the same, now-superseded, token
fails with `TokenRevoked`. -/
theorem refresh_rotation_single_use (svc : AuthenticationService)
    (dir : UserRepositoryPort) (repo : InMemoryTokenRepository)
    (uid : String) (u : User) (now1 now2 now3 : Nat)
    (hu : dir.get_by_id uid = some u) (huid : u.id = uid) (hne : uid ≠ "")
    (hstored : repo.get_refresh_token uid
      = some (svc.jwt_service.encode_refresh_token uid svc.refresh_token_expiry now1))
    (h12 : now1 < now2) (h2 : now2 ≤ now1 + svc.refresh_token_expiry)
    (h3 : now3 ≤ now1 + svc.refresh_token_expiry) :
    (∃ pair, (svc.refresh_token dir repo
        (svc.jwt_service.encode_refresh_token uid svc.refresh_token_expiry now1)
        now2).1 = Except.ok pair) ∧
    (svc.refresh_token dir
        (svc.refresh_token dir repo
          (svc.jwt_service.encode_refresh_token uid svc.refresh_token_expiry now1)
          now2).2
        (svc.jwt_service.encode_refresh_token uid svc.refresh_token_expiry now1)
        now3).1 = Except.error AuthError.tokenRevoked := by
  subst huid
  have hval1 : repo.validate_refresh_token u.id
      (svc.jwt_service.encode_refresh_token u.id svc.refresh_token_expiry now1)
      = true := by
    unfold InMemoryTokenRepository.validate_refresh_token
    unfold InMemoryTokenRepository.get_refresh_token at hstored
    rw [hstored]
    simp [JWTService.encode_refresh_token, Token.isEmptyStr]
  have hstep1 := refresh_token_success svc dir repo u.id u
    svc.refresh_token_expiry now1 now2 hu hne hval1 h2
  refine ⟨⟨_, by rw [hstep1]⟩, ?_⟩
  rw [hstep1]
  have hval2 : (repo.store_refresh_token u.id
      (svc.jwt_service.encode_refresh_token u.id svc.refresh_token_expiry now2)).validate_refresh_token
      u.id (svc.jwt_service.encode_refresh_token u.id svc.refresh_token_expiry now1)
      = false := by
    unfold InMemoryTokenRepository.validate_refresh_token
      InMemoryTokenRepository.store_refresh_token
    simp [lookupStr, JWTService.encode_refresh_token, Token.isEmptyStr,
      Token.signed.injEq, Payload.mk.injEq, Nat.ne_of_gt h12]
  unfold AuthenticationService.refresh_token
  rw [validate_encode_refresh _ _ _ _ _ h3]
  simp [hne, hval2]

/-- Witness for C1 (amended): login at second 0, refresh at second 1,
re-presenting the original token at second 2 fails with `TokenRevoked`. -/
theorem refresh_rotation_single_use_witness :
    (∃ pair, (demoService.refresh_token demoPort demoRepo1 demoRT 1).1
      = Except.ok pair) ∧
    (demoService.refresh_token demoPort
        (demoService.refresh_token demoPort demoRepo1 demoRT 1).2 demoRT 2).1
      = Except.error AuthError.tokenRevoked :=
  refresh_rotation_single_use demoService demoPort demoRepo1 "user-1" mockUser
    0 1 2 rfl rfl (by decide) rfl (by decide) (by decide) (by decide)
